import Mathlib

/-!
Verification of the injection/recovery module of `lightkurve` (the single
source file `src/lightkurve/injection.py`).

A shallow embedding of the injection/recovery module.  Python floats are
modelled as rationals (`ℚ`); numpy arrays as `List ℚ`; the global numpy
random stream as an explicit stream `Rng` of unit/standard draws that is
threaded through every sampling call; the external collaborators (sncosmo's
band-flux evaluator, batman's transit photometry, scipy's `op.minimize`,
the `bls.eebls` period search and `np.sqrt`) as explicit function
parameters, since the spec treats them as black boxes.  Fallible Python
code (unpacking errors, `None` propagation) is modelled with `Except` /
`Option`.  Console `print` calls are modelled only for the diagnostic
"not supported" messages, as a `List String` component of the result; the
progress prints inside the loops are console-only side effects and are not
modelled.
-/

namespace Lightkurve

/-- The global numpy random stream, modelled as a list of draws: each
`sample` call consumes the head (a unit-uniform / standard-normal draw). -/
abbrev Rng := List ℚ

/-- Embeds `np.min` over an array (`np.min(time)`, injection.py line 300/305).
numpy raises on an empty array; the `0` default is an embedding artifact,
theorems only use it on the shapes the code reaches. -/
def np_min : List ℚ → ℚ
  | [] => 0
  | x :: xs => xs.foldl min x

/-- Embeds `np.max` over an array (injection.py line 300/305). -/
def np_max : List ℚ → ℚ
  | [] => 0
  | x :: xs => xs.foldl max x

/-- Insertion step for sorting (ascending). -/
def insertSorted (x : ℚ) : List ℚ → List ℚ
  | [] => [x]
  | y :: ys => if x ≤ y then x :: y :: ys else y :: insertSorted x ys

/-- Ascending insertion sort, used to model numpy's order statistics. -/
def sortQ (l : List ℚ) : List ℚ := l.foldr insertSorted []

/-- Floor of a rational as an integer (`Int.fdiv` is floor division). -/
def qfloor (q : ℚ) : ℤ := q.num.fdiv q.den

/-- Embeds `np.median(time)` (injection.py line 286): middle element of the sorted
array, or the mean of the two middle elements for even length. -/
def np_median (l : List ℚ) : ℚ :=
  let s := sortQ l
  let n := s.length
  if n = 0 then 0
  else if n % 2 = 1 then s.getD (n / 2) 0
  else (s.getD (n / 2 - 1) 0 + s.getD (n / 2) 0) / 2

/-- Embeds `np.percentile(flux, p)` with the default linear-interpolation method
(injection.py line 289): with `h = (n-1)·p/100`, interpolate between the
two sorted neighbours of `h`. -/
def np_percentile (l : List ℚ) (p : ℚ) : ℚ :=
  let s := sortQ l
  let n := s.length
  if n = 0 then 0 else
  let h : ℚ := ((n : ℚ) - 1) * p / 100
  let lo := qfloor h
  let a := s.getD lo.toNat 0
  let b := s.getD (lo.toNat + 1) a
  a + (h - (lo : ℚ)) * (b - a)

/-- Embeds `UniformDistribution(lb, ub)` and `GaussianDistribution(mean, var)`
(injection.py lines 8-65). -/
inductive Distribution where
  | uniform : ℚ → ℚ → Distribution
  | gaussian : ℚ → ℚ → Distribution
deriving DecidableEq

/-- Embeds `sample()` (lines 27-29 and 56-58): one draw is consumed from the numpy
stream; a uniform draw maps the unit draw into `[lb, ub)`, a gaussian draw
scales a standard-normal draw by the configured scale. -/
def Distribution.sample : Distribution → Rng → ℚ × Rng
  | .uniform lb ub, r => (lb + (ub - lb) * r.headD 0, r.tail)
  | .gaussian mean var, r => (mean + var * r.headD 0, r.tail)

/-- A constructor argument that is either a literal scalar or a
Distribution object; this is the domain of the
`isinstance(val, (GaussianDistribution, UniformDistribution))` dynamic
dispatch in the source (lines 112, 172, 180). -/
inductive ParamValue where
  | lit : ℚ → ParamValue
  | dist : Distribution → ParamValue
deriving DecidableEq

/-- The `isinstance`-guarded resolution: a Distribution is sampled, a
literal is stored as is (lines 112-115, 172-175, 180-183). -/
def resolve : ParamValue → Rng → ℚ × Rng
  | .lit x, r => (x, r)
  | .dist d, r => d.sample r

/-- A Python dict value in `model.params`: the resolved parameters are
scalars, the `'signal'` entry is a flux array (line 220). -/
inductive PVal where
  | scalar : ℚ → PVal
  | arr : List ℚ → PVal
deriving DecidableEq

/-- Python `dict.update` for one key: overwrite in place if the key exists,
otherwise append (insertion order preserved) — models line 221. -/
def dictUpdate (d : List (String × PVal)) (k : String) (v : PVal) :
    List (String × PVal) :=
  if d.any (fun kv => kv.1 = k) then
    d.map (fun kv => if kv.1 = k then (k, v) else kv)
  else d ++ [(k, v)]

/-- Embeds `batman.TransitParams` as configured by `add_planet`
(injection.py lines 117-125). -/
structure TransitParamsB where
  t0 : ℚ
  per : ℚ
  rp : ℚ
  a : ℚ
  inc : ℚ
  ecc : ℚ
  w : ℚ
  limb_dark : String
  u : List ℚ
deriving DecidableEq

/-- Embeds `TransitModel` (lines 68-146): the attributes set by `__init__` and by
`add_planet` via `setattr`.  Python leaves the planet attributes unset
until `add_planet` runs; the zero initial values below are embedding
placeholders for that unset state. -/
structure TransitModel where
  signaltype : String
  multiplicative : Bool
  period : ℚ
  rprs : ℚ
  T0 : ℚ
  a : ℚ
  inc : ℚ
  ecc : ℚ
  w : ℚ
  limb_dark : String
  u : List ℚ
  model : TransitParamsB
deriving DecidableEq

/-- Embeds `TransitModel.__init__` (lines 81-85). -/
def TransitModel.init : TransitModel :=
  { signaltype := "Planet", multiplicative := true,
    period := 0, rprs := 0, T0 := 0, a := 0, inc := 0, ecc := 0, w := 0,
    limb_dark := "", u := [],
    model := { t0 := 0, per := 0, rp := 0, a := 0, inc := 0, ecc := 0,
               w := 0, limb_dark := "", u := [] } }

/-- Embeds `TransitModel.add_planet` (lines 90-125): every numeric parameter goes
through the `isinstance` check and a supplied Distribution is sampled
exactly once, in the insertion order of the `params` dict; the resolved
scalars are stored both as attributes and inside the batman parameter
object.  The source defaults are `T0=5, a=15., inc=90., ecc=0., w=90.,
limb_dark='quadratic', u=[0.1, 0.3]`; callers of this embedding pass them
explicitly. -/
def TransitModel.add_planet (m : TransitModel)
    (period rprs T0 a inc ecc w : ParamValue)
    (limb_dark : String) (u : List ℚ) (rng : Rng) : TransitModel × Rng :=
  let s1 := resolve period rng
  let s2 := resolve rprs s1.2
  let s3 := resolve T0 s2.2
  let s4 := resolve a s3.2
  let s5 := resolve inc s4.2
  let s6 := resolve ecc s5.2
  let s7 := resolve w s6.2
  ({ m with
      period := s1.1, rprs := s2.1, T0 := s3.1, a := s4.1, inc := s5.1,
      ecc := s6.1, w := s7.1, limb_dark := limb_dark, u := u,
      model := { t0 := s3.1, per := s1.1, rp := s2.1, a := s4.1,
                 inc := s5.1, ecc := s6.1, w := s7.1,
                 limb_dark := limb_dark, u := u } }, s7.2)

/-- The external batman photometry collaborator:
`batman.TransitModel(params, t).light_curve(params)` (lines 144-145),
a black-box function of the configured parameters and the time array. -/
abbrev BatEvaluator := TransitParamsB → List ℚ → List ℚ

/-- Embeds `TransitModel.evaluate` (lines 127-146): delegates to batman on the
stored parameter object.  It reads only stored attributes and consumes no
randomness, so repeated calls on one model yield the same flux. -/
def TransitModel.evaluate (E : BatEvaluator) (m : TransitModel)
    (time : List ℚ) : List ℚ :=
  E m.model time

/-- Embeds `SupernovaModel` (lines 148-223): attributes set by `__init__`, plus
the `params` dict that `evaluate` creates on line 219 (empty before the
first `evaluate` call, since Python only creates it there). -/
structure SupernovaModel where
  signaltype : String
  source : String
  T0 : ℚ
  bandpass : String
  z : ℚ
  multiplicative : Bool
  sn_params : List (String × ℚ)
  params : List (String × PVal)
deriving DecidableEq

/-- Embeds `SupernovaModel.__init__` (lines 166-183): `T0`, `source`, `bandpass`
are stored verbatim (the documented contract types `T0` as a float); `z`
and every extra keyword argument go through the `isinstance` check and a
Distribution among them is sampled exactly once, here, in keyword order. -/
def SupernovaModel.build (T0 : ℚ) (source bandpass : String)
    (z : ParamValue) (kwargs : List (String × ParamValue)) (rng : Rng) :
    SupernovaModel × Rng :=
  let sz := resolve z rng
  let step := fun (acc : List (String × ℚ) × Rng) (kv : String × ParamValue) =>
    let sv := resolve kv.2 acc.2
    (acc.1 ++ [(kv.1, sv.1)], sv.2)
  let sps := kwargs.foldl step ([], sz.2)
  ({ signaltype := "Supernova", source := source, T0 := T0,
     bandpass := bandpass, z := sz.1, multiplicative := false,
     sn_params := sps.1, params := [] }, sps.2)

/-- The external sncosmo collaborator:
`sncosmo.Model(source)`, `model.set(t0=..., z=..., **sn_params)`,
`model.bandflux(bandpass, time)` (lines 209-211), as one black-box
function of source, t0, z, the extra parameters, the bandpass and the
time array. -/
abbrev SNEvaluator := String → ℚ → ℚ → List (String × ℚ) → String → List ℚ → List ℚ

/-- Embeds `SupernovaModel.evaluate` (lines 188-223): delegates to sncosmo for the
band intensity; when the bandpass is exactly `'kepler'` the intensity is
rescaled by the effective area `A_eff_cm2 = 5480.0` (lines 212-216),
otherwise it is returned unscaled (line 218).  Lines 219-221 then set
`self.params` to a copy of `sn_params` updated with the flux under the
`'signal'` key — a mutation of the model object, returned here as the
second component.  The resolved parameters (`T0`, `z`, `sn_params`) are
only read, never resampled. -/
def SupernovaModel.evaluate (E : SNEvaluator) (m : SupernovaModel)
    (time : List ℚ) : List ℚ × SupernovaModel :=
  let band_intensity := E m.source m.T0 m.z m.sn_params m.bandpass time
  let bandflux :=
    if m.bandpass = "kepler" then band_intensity.map (fun x => x * 5480)
    else band_intensity
  let newparams :=
    dictUpdate (m.sn_params.map (fun kv => (kv.1, PVal.scalar kv.2)))
      "signal" (PVal.arr bandflux)
  (bandflux, { m with params := newparams })

/-- The duck-typed interface `inject` relies on: a `signaltype` tag, a
`multiplicative` flag and an `evaluate` method (lines 241-246 use exactly
these three members of the model argument). -/
structure SignalModelI where
  signaltype : String
  multiplicative : Bool
  evaluate : List ℚ → List ℚ

/-- View a `SupernovaModel` through the `inject` interface (the external
evaluator is fixed first; `inject` only sees `evaluate(time)`). -/
def SignalModelI.ofSupernova (E : SNEvaluator) (m : SupernovaModel) :
    SignalModelI :=
  { signaltype := m.signaltype, multiplicative := m.multiplicative,
    evaluate := fun t => (SupernovaModel.evaluate E m t).1 }

/-- View a `TransitModel` through the `inject` interface. -/
def SignalModelI.ofTransit (E : BatEvaluator) (m : TransitModel) :
    SignalModelI :=
  { signaltype := m.signaltype, multiplicative := m.multiplicative,
    evaluate := fun t => TransitModel.evaluate E m t }

/-- Modelled from the spec: `lightkurve.lightcurve.SyntheticLightCurve` is
not under `src/`; per the spec's data model it is a light curve plus
provenance metadata `{signal_type, injected parameter mapping}`.  The
constructor call in `inject` (line 245) passes `time`, `flux`, `flux_err`
and `signaltype`; any parameter mapping would arrive through the keyword
arguments, modelled by the `params` field. -/
structure SyntheticLightCurve where
  time : List ℚ
  flux : List ℚ
  flux_err : List ℚ
  signaltype : String
  params : List (String × PVal)
deriving DecidableEq

/-- Embeds `inject(time, flux, flux_err, model)` (lines 225-246): multiplicative
models are merged by elementwise product, additive ones by elementwise
sum; `flux_err` is passed through unchanged.  The `**model.params` keyword
expansion on line 246 is commented out in the source, so no parameter
mapping reaches the constructed light curve: `params := []`. -/
def inject (time flux flux_err : List ℚ) (model : SignalModelI) :
    SyntheticLightCurve :=
  let mergedflux :=
    if model.multiplicative = true then
      List.zipWith (fun a b => a * b) flux (model.evaluate time)
    else
      List.zipWith (fun a b => a + b) flux (model.evaluate time)
  { time := time, flux := mergedflux, flux_err := flux_err,
    signaltype := model.signaltype, params := [] }

/-- An observed light curve: three aligned arrays. -/
structure LightCurve where
  time : List ℚ
  flux : List ℚ
  flux_err : List ℚ
deriving DecidableEq

/-- Modelled from the spec: the `LightCurve.inject` method (defined in
`lightkurve.lightcurve`, not under `src/`) forwards the stored arrays and
the model to the module-level `inject`. -/
def LightCurve.inject (lc : LightCurve) (model : SignalModelI) :
    SyntheticLightCurve :=
  Lightkurve.inject lc.time lc.flux lc.flux_err model

/-- The chi-square statistic
`np.sum((flux - model)**2 * inv_sigma2)` with `inv_sigma2 = 1.0/flux_err**2`
(injection.py lines 310-311 and 377-378). -/
def chisq_stat (flux modelArr flux_err : List ℚ) : ℚ :=
  let inv_sigma2 := flux_err.map (fun s => 1 / s ^ 2)
  ((List.zipWith (fun f m => (f - m) ^ 2) flux modelArr).zipWith
    (fun a b => a * b) inv_sigma2).sum

/-- The inner `create_initial_guess` of `recover` (lines 280-292), with its
closure variables made explicit.  For a SALT1/SALT2 source the supplied
guess (possibly `None`) is returned; otherwise a missing guess is replaced
by `[median(time), 0.5, 3e-7, percentile(flux, 3)]` and a supplied guess
is returned verbatim. -/
def create_initial_guess (time flux : List ℚ) (source : String)
    (initial_guess : Option (List ℚ)) : Option (List ℚ) :=
  if source = "SALT1" ∨ source = "SALT2" then initial_guess
  else
    match initial_guess with
    | none => some [np_median time, 1 / 2, 3 / 10 ^ 7, np_percentile flux 3]
    | some g => some g

/-- The inner Supernova `ln_like` of `recover` (lines 296-313), closure
variables explicit.  The result pairs the returned value with the number
of times the external sncosmo evaluator was invoked (equivalently, the
number of `SupernovaModel` constructions followed by `evaluate`): the
out-of-bounds guard returns the penalty `-1e99` before the model is ever
built, so that path reports zero evaluator calls.  A `theta` of the wrong
arity raises `ValueError` in Python; the `(0, 0)` fallback is an
embedding artifact never reached by a shape-preserving optimizer started
from the guards' own guess vectors. -/
def ln_like_sn (E : SNEvaluator) (source bandpass : String)
    (time flux flux_err : List ℚ) (theta : List ℚ) : ℚ × Nat :=
  if source = "SALT1" ∨ source = "SALT2" then
    match theta with
    | [T0, z, x0, x1, c, background] =>
      if z < 0 ∨ 3 < z ∨ T0 < np_min time ∨ np_max time < T0 ∨
          x0 < 0 ∨ 1 < x0 ∨ x1 < 0 ∨ 1 < x1 ∨ c < -(1 / 2) ∨ 1 / 2 < c then
        (-(10 ^ 99), 0)
      else
        let m := (SupernovaModel.build T0 source bandpass (ParamValue.lit z)
          [("x0", ParamValue.lit x0), ("x1", ParamValue.lit x1),
           ("c", ParamValue.lit c)] []).1
        let modelArr := (SupernovaModel.evaluate E m time).1.map
          (fun x => x + background)
        (-(1 / 2) * chisq_stat flux modelArr flux_err, 1)
    | _ => (0, 0)
  else
    match theta with
    | [T0, z, amplitude, background] =>
      if z < 0 ∨ 3 < z ∨ T0 < np_min time ∨ np_max time < T0 then
        (-(10 ^ 99), 0)
      else
        let m := (SupernovaModel.build T0 source bandpass (ParamValue.lit z)
          [("amplitude", ParamValue.lit amplitude)] []).1
        let modelArr := (SupernovaModel.evaluate E m time).1.map
          (fun x => x + background)
        (-(1 / 2) * chisq_stat flux modelArr flux_err, 1)
    | _ => (0, 0)

/-- The inner `lnprior_optimization` of `recover` (lines 316-323): rejects
`z` outside `[0, 3]` with the penalty, otherwise `0`.  `z` is the second
component of `theta` under both destructurings; the `0` fallback for a
wrong arity is an embedding artifact (Python raises `ValueError`). -/
def lnprior_optimization (theta : List ℚ) : ℚ :=
  match theta with
  | _ :: z :: _ => if z < 0 ∨ 3 < z then -(10 ^ 99) else 0
  | _ => 0

/-- The inner `neg_ln_posterior` of `recover` (lines 326-328). -/
def neg_ln_posterior (E : SNEvaluator) (source bandpass : String)
    (time flux flux_err : List ℚ) (theta : List ℚ) : ℚ :=
  -(lnprior_optimization theta +
    (ln_like_sn E source bandpass time flux flux_err theta).1)

/-- The inner Planet `ln_like` of `recover` (lines 369-381): builds a
transit model with the source defaults for the unsupplied planet
parameters, evaluates it via batman and returns the negated
log-likelihood `-(-0.5 * chisq)`.  The `0` fallback for a wrong arity is
an embedding artifact (Python raises `ValueError`). -/
def ln_like_planet (E : BatEvaluator) (time flux flux_err : List ℚ)
    (theta : List ℚ) : ℚ :=
  match theta with
  | [period, rprs, T0] =>
    let m := (TransitModel.init.add_planet (ParamValue.lit period)
      (ParamValue.lit rprs) (ParamValue.lit T0) (ParamValue.lit 15)
      (ParamValue.lit 90) (ParamValue.lit 0) (ParamValue.lit 90)
      "quadratic" [1 / 10, 3 / 10] []).1
    let flux_model := TransitModel.evaluate E m time
    let chisq := chisq_stat flux flux_model flux_err
    let lnlikelihood := -(1 / 2) * chisq
    (-lnlikelihood)
  | _ => 0

/-- The external scipy optimizer `op.minimize(f, x0).x` as a black box:
a function of the objective and the start vector.  scipy's local
optimizers return a point of the same dimension as `x0`; theorems that
need this take it as a hypothesis. -/
abbrev Optimizer := (List ℚ → ℚ) → List ℚ → List ℚ

/-- The external `bls.eebls(time, flux, u, v, nf, fmin, df, nbins, qmi,
qma)` period-search collaborator (line 354), returning its results
tuple. -/
abbrev BlsFn := List ℚ → List ℚ → List ℚ → List ℚ → ℚ → ℚ → ℚ → ℚ → ℚ → ℚ → List ℚ

/-- The BLS seeding block of `recover`'s Planet branch (lines 342-366):
zero work arrays, the fixed search settings, then
`bls_period = results[1]`, `bls_rprs = sqrt(results[3])`,
`midtime = (results[6]-results[5])/2 + results[5]`,
`bls_T0 = midtime/nbins * bls_period + min(time)`.  `np.sqrt` is an
external numeric routine, passed in as `sqrtf`.  `eebls` returns a
7-tuple; the `getD` defaults are unreachable for the real collaborator. -/
def bls_seed (bls : BlsFn) (sqrtf : ℚ → ℚ) (time flux : List ℚ) : List ℚ :=
  let u := List.replicate time.length 0
  let v := List.replicate time.length 0
  let nf : ℚ := 1000
  let fmin : ℚ := 35 / 1000
  let df : ℚ := 1 / 1000
  let nbins : ℚ := 500
  let qmi : ℚ := 1 / 1000
  let qma : ℚ := 3 / 10
  let results := bls time flux u v nf fmin df nbins qmi qma
  let bls_period := results.getD 1 0
  let depth := results.getD 3 0
  let bls_rprs := sqrtf depth
  let midtime := (results.getD 6 0 - results.getD 5 0) / 2 + results.getD 5 0
  let bls_T0 := midtime / nbins * bls_period + np_min time
  [bls_period, bls_rprs, bls_T0]

/-- Embeds `recover(time, flux, flux_err, signal_type, source, bandpass,
initial_guess)` (lines 249-389).  The Supernova branch minimizes
`neg_ln_posterior` from `create_initial_guess()`; a `None` guess (only
possible for SALT sources) makes scipy raise, modelled as an error.  The
Planet branch always minimizes its `ln_like` from the BLS-derived seed —
the `initial_guess` argument is never consulted there.  Any other signal
type prints `'Signal Type not supported.'` (modelled as the message list)
and returns `None`.  The debug prints of the BLS intermediates (lines
359-366) are console-only and not modelled. -/
def recover (Esn : SNEvaluator) (Ebat : BatEvaluator) (opt : Optimizer)
    (bls : BlsFn) (sqrtf : ℚ → ℚ) (time flux flux_err : List ℚ)
    (signal_type source bandpass : String)
    (initial_guess : Option (List ℚ)) :
    Except String (Option (List ℚ) × List String) :=
  if signal_type = "Supernova" then
    match create_initial_guess time flux source initial_guess with
    | some x0 =>
      .ok (some (opt (neg_ln_posterior Esn source bandpass time flux flux_err) x0), [])
    | none => .error "TypeError: scipy.optimize.minimize requires an array x0"
  else if signal_type = "Planet" then
    .ok (some (opt (ln_like_planet Ebat time flux flux_err)
      (bls_seed bls sqrtf time flux)), [])
  else
    .ok (none, ["Signal Type not supported."])

/-- Modelled from the spec: the `SyntheticLightCurve.recover` method
(defined in `lightkurve.lightcurve`, not under `src/`) forwards the
stored arrays and the signal type to the module-level `recover` with that
function's defaults `source='hsiao'`, `bandpass='kepler'`,
`initial_guess=None`. -/
def SyntheticLightCurve.recover (Esn : SNEvaluator) (Ebat : BatEvaluator)
    (opt : Optimizer) (bls : BlsFn) (sqrtf : ℚ → ℚ)
    (lc : SyntheticLightCurve) (signal_type : String) :
    Except String (Option (List ℚ) × List String) :=
  Lightkurve.recover Esn Ebat opt bls sqrtf lc.time lc.flux lc.flux_err
    signal_type "hsiao" "kepler" none

/-- The Supernova trial loop of `injrec_test` (lines 434-448): per trial,
sample `T0`, `z`, `amplitude`, build a `SupernovaModel` with
`source='Hsiao'`, `bandpass='Kepler'`, inject it, recover, unpack the
recovered vector into exactly three names
(`T0_f, z_f, amplitude_f = lcinj.recover('Supernova')`, line 442) and
count the trial when all three are within the relative tolerance.  A
recovered vector that is not a 3-sequence makes the Python unpacking
raise `ValueError`, modelled as the error result. -/
def injrec_sn_loop (Esn : SNEvaluator) (Ebat : BatEvaluator)
    (opt : Optimizer) (bls : BlsFn) (sqrtf : ℚ → ℚ) (lc : LightCurve)
    (constr : ℚ) (T0d zd ampd : Distribution) :
    Nat → Rng → Nat → Except String Nat
  | 0, _, nrecovered => .ok nrecovered
  | Nat.succ n, rng, nrecovered =>
    let s1 := T0d.sample rng
    let s2 := zd.sample s1.2
    let s3 := ampd.sample s2.2
    let T0_test := s1.1
    let z_test := s2.1
    let amplitude_test := s3.1
    let mb := SupernovaModel.build T0_test "Hsiao" "Kepler"
      (ParamValue.lit z_test) [("amplitude", ParamValue.lit amplitude_test)] s3.2
    let lcinj := lc.inject (SignalModelI.ofSupernova Esn mb.1)
    match lcinj.recover Esn Ebat opt bls sqrtf "Supernova" with
    | .error e => .error e
    | .ok (none, _) => .error "TypeError: cannot unpack non-iterable NoneType object"
    | .ok (some xs, _) =>
      match xs with
      | [T0_f, z_f, amplitude_f] =>
        if |T0_f - T0_test| < constr * T0_test ∧
            |z_f - z_test| < constr * z_test ∧
            |amplitude_f - amplitude_test| < constr * amplitude_test then
          injrec_sn_loop Esn Ebat opt bls sqrtf lc constr T0d zd ampd n mb.2
            (nrecovered + 1)
        else
          injrec_sn_loop Esn Ebat opt bls sqrtf lc constr T0d zd ampd n mb.2
            nrecovered
      | _ => .error "ValueError: too many values to unpack (expected 3)"

/-- The Planet trial loop of `injrec_test` (lines 454-467): per trial,
sample `period`, `rprs`, `T0`, build a `TransitModel` with the
`add_planet` defaults, inject it, recover, unpack the recovered vector
into `period_f, rprs_f, T0_f` (line 463) and count the trial when all
three are within the relative tolerance. -/
def injrec_planet_loop (Esn : SNEvaluator) (Ebat : BatEvaluator)
    (opt : Optimizer) (bls : BlsFn) (sqrtf : ℚ → ℚ) (lc : LightCurve)
    (constr : ℚ) (pd rd td : Distribution) :
    Nat → Rng → Nat → Except String Nat
  | 0, _, nrecovered => .ok nrecovered
  | Nat.succ n, rng, nrecovered =>
    let s1 := pd.sample rng
    let s2 := rd.sample s1.2
    let s3 := td.sample s2.2
    let period_test := s1.1
    let rprs_test := s2.1
    let T0_test := s3.1
    let mb := TransitModel.init.add_planet (ParamValue.lit period_test)
      (ParamValue.lit rprs_test) (ParamValue.lit T0_test) (ParamValue.lit 15)
      (ParamValue.lit 90) (ParamValue.lit 0) (ParamValue.lit 90)
      "quadratic" [1 / 10, 3 / 10] s3.2
    let lcinj := lc.inject (SignalModelI.ofTransit Ebat mb.1)
    match lcinj.recover Esn Ebat opt bls sqrtf "Planet" with
    | .error e => .error e
    | .ok (none, _) => .error "TypeError: cannot unpack non-iterable NoneType object"
    | .ok (some xs, _) =>
      match xs with
      | [period_f, rprs_f, T0_f] =>
        if |period_f - period_test| < constr * period_test ∧
            |rprs_f - rprs_test| < constr * rprs_test ∧
            |T0_f - T0_test| < constr * T0_test then
          injrec_planet_loop Esn Ebat opt bls sqrtf lc constr pd rd td n mb.2
            (nrecovered + 1)
        else
          injrec_planet_loop Esn Ebat opt bls sqrtf lc constr pd rd td n mb.2
            nrecovered
      | _ => .error "ValueError: too many values to unpack (expected 3)"

/-- Embeds `injrec_test(lc, signal_type, ntests, constr, period, rprs, T0,
z, amplitude)` (lines 391-474): runs the per-signal-type trial loop and
returns `nrecovered / ntests` (Python 3 true division); any other signal
type prints `'Signal type not supported.'` (modelled as the message list)
and returns `None`.  The per-trial `'Recovered: ...'` progress prints are
console-only and not modelled. -/
def injrec_test (Esn : SNEvaluator) (Ebat : BatEvaluator) (opt : Optimizer)
    (bls : BlsFn) (sqrtf : ℚ → ℚ) (lc : LightCurve) (signal_type : String)
    (ntests : Nat) (constr : ℚ)
    (period rprs T0 z amplitude : Distribution) (rng : Rng) :
    Except String (Option ℚ × List String) :=
  if signal_type = "Supernova" then
    match injrec_sn_loop Esn Ebat opt bls sqrtf lc constr T0 z amplitude
        ntests rng 0 with
    | .error e => .error e
    | .ok nrecovered => .ok (some ((nrecovered : ℚ) / (ntests : ℚ)), [])
  else if signal_type = "Planet" then
    match injrec_planet_loop Esn Ebat opt bls sqrtf lc constr period rprs T0
        ntests rng 0 with
    | .error e => .error e
    | .ok nrecovered => .ok (some ((nrecovered : ℚ) / (ntests : ℚ)), [])
  else
    .ok (none, ["Signal type not supported."])

/-- Spec-side view of one Planet campaign trial, for the refinement stated
with claim C3: the injected parameter triple `(period, rprs, T0)` sampled
for the trial, the recovered triple read off the recovery result, and the
random stream left for the next trial.  (The Planet branch of `recover`
always yields a recovered vector; the `[]` fallback is unreachable.) -/
def planet_trial (Esn : SNEvaluator) (Ebat : BatEvaluator) (opt : Optimizer)
    (bls : BlsFn) (sqrtf : ℚ → ℚ) (lc : LightCurve) (pd rd td : Distribution)
    (rng : Rng) : (ℚ × ℚ × ℚ) × (ℚ × ℚ × ℚ) × Rng :=
  let s1 := pd.sample rng
  let s2 := rd.sample s1.2
  let s3 := td.sample s2.2
  let mb := TransitModel.init.add_planet (ParamValue.lit s1.1)
    (ParamValue.lit s2.1) (ParamValue.lit s3.1) (ParamValue.lit 15)
    (ParamValue.lit 90) (ParamValue.lit 0) (ParamValue.lit 90)
    "quadratic" [1 / 10, 3 / 10] s3.2
  let lcinj := lc.inject (SignalModelI.ofTransit Ebat mb.1)
  let xs :=
    match lcinj.recover Esn Ebat opt bls sqrtf "Planet" with
    | .ok (some ys, _) => ys
    | _ => []
  ((s1.1, s2.1, s3.1), (xs.getD 0 0, xs.getD 1 0, xs.getD 2 0), mb.2)

/-- The scoring rule in the words of the spec and claim C3: a trial counts
as recovered exactly when every recovered parameter `p_f` satisfies
`|p_f − p_injected| < constr × p_injected`, each parameter checked
independently and all required to pass. -/
def planet_recovered (constr : ℚ) (pinj pfit : ℚ × ℚ × ℚ) : Prop :=
  |pfit.1 - pinj.1| < constr * pinj.1 ∧
  |pfit.2.1 - pinj.2.1| < constr * pinj.2.1 ∧
  |pfit.2.2 - pinj.2.2| < constr * pinj.2.2

instance (constr : ℚ) (pinj pfit : ℚ × ℚ × ℚ) :
    Decidable (planet_recovered constr pinj pfit) := by
  unfold planet_recovered
  infer_instance

/-- Spec-side recovered-trial count over a Planet campaign of `n` trials,
per claim C3's wording. -/
def planet_recovered_count (Esn : SNEvaluator) (Ebat : BatEvaluator)
    (opt : Optimizer) (bls : BlsFn) (sqrtf : ℚ → ℚ) (lc : LightCurve)
    (constr : ℚ) (pd rd td : Distribution) : Nat → Rng → Nat
  | 0, _ => 0
  | Nat.succ n, rng =>
    let t := planet_trial Esn Ebat opt bls sqrtf lc pd rd td rng
    (if planet_recovered constr t.1 t.2.1 then 1 else 0) +
      planet_recovered_count Esn Ebat opt bls sqrtf lc constr pd rd td n t.2.2

end Lightkurve

deriving instance DecidableEq for Except

namespace Lightkurve

/-- Lemma: `getD` distributes over `zipWith` at indices inside both lists. -/
theorem getD_zipWith (f : ℚ → ℚ → ℚ) :
    ∀ (a b : List ℚ) (i : Nat), i < a.length → i < b.length →
      (List.zipWith f a b).getD i 0 = f (a.getD i 0) (b.getD i 0) := by
  intro a
  induction a with
  | nil => intro b i h1 _; exact absurd h1 (by simp)
  | cons x xs ih =>
    intro b i h1 h2
    cases b with
    | nil => exact absurd h2 (by simp)
    | cons y ys =>
      cases i with
      | zero => rfl
      | succ j =>
        have hj1 : j < xs.length := by simpa using h1
        have hj2 : j < ys.length := by simpa using h2
        simpa using ih ys j hj1 hj2

/-- The merged flux built by `inject` (definitional reading of lines
241-244). -/
theorem inject_flux_def (time flux flux_err : List ℚ) (model : SignalModelI) :
    (inject time flux flux_err model).flux =
      if model.multiplicative = true then
        List.zipWith (fun a b => a * b) flux (model.evaluate time)
      else List.zipWith (fun a b => a + b) flux (model.evaluate time) := rfl

/-- Claim C1: for every light curve `(time, flux, flux_err)` and every model whose
`evaluate` returns a flux sequence of the same length as `time`, `inject`
returns a synthetic light curve whose merged flux at each index `i` is the
product `flux[i] * synthetic[i]` when `model.multiplicative` holds and the
sum `flux[i] + synthetic[i]` otherwise, and whose `flux_err` is the input
`flux_err` unchanged. -/
theorem inject_merges_elementwise_and_keeps_flux_err
    (time flux flux_err : List ℚ) (model : SignalModelI)
    (hlen : (model.evaluate time).length = time.length)
    (hf : flux.length = time.length) (i : Nat) (hi : i < time.length) :
    ((inject time flux flux_err model).flux.getD i 0 =
      if model.multiplicative = true then
        flux.getD i 0 * (model.evaluate time).getD i 0
      else flux.getD i 0 + (model.evaluate time).getD i 0) ∧
    (inject time flux flux_err model).flux_err = flux_err := by
  refine ⟨?_, rfl⟩
  rw [inject_flux_def]
  by_cases hm : model.multiplicative = true
  · rw [if_pos hm, if_pos hm]
    exact getD_zipWith _ flux _ i (by rw [hf]; exact hi) (by rw [hlen]; exact hi)
  · rw [if_neg hm, if_neg hm]
    exact getD_zipWith _ flux _ i (by rw [hf]; exact hi) (by rw [hlen]; exact hi)

/-- Witness for C1 at a concrete input: a multiplicative model returning
`[2, 2]` on `time = [0, 1]`, observed flux `[3, 4]`. -/
theorem inject_merges_elementwise_and_keeps_flux_err_witness :
    (((SignalModelI.mk "Planet" true (fun t => t.map (fun _ => 2))).evaluate
        [0, 1]).length = ([0, 1] : List ℚ).length ∧
      ([3, 4] : List ℚ).length = ([0, 1] : List ℚ).length ∧
      0 < ([0, 1] : List ℚ).length) ∧
    (((inject [0, 1] [3, 4] [5, 6]
        (SignalModelI.mk "Planet" true (fun t => t.map (fun _ => 2)))).flux.getD 0 0 =
      if (SignalModelI.mk "Planet" true
          (fun t => t.map (fun _ => (2 : ℚ)))).multiplicative = true then
        ([3, 4] : List ℚ).getD 0 0 *
          ((SignalModelI.mk "Planet" true (fun t => t.map (fun _ => 2))).evaluate
            [0, 1]).getD 0 0
      else ([3, 4] : List ℚ).getD 0 0 +
          ((SignalModelI.mk "Planet" true (fun t => t.map (fun _ => 2))).evaluate
            [0, 1]).getD 0 0) ∧
    (inject [0, 1] [3, 4] [5, 6]
        (SignalModelI.mk "Planet" true (fun t => t.map (fun _ => 2)))).flux_err =
      [5, 6]) :=
  ⟨⟨rfl, rfl, by decide⟩,
    inject_merges_elementwise_and_keeps_flux_err [0, 1] [3, 4] [5, 6]
      (SignalModelI.mk "Planet" true (fun t => t.map (fun _ => 2)))
      rfl rfl 0 (by decide)⟩

/-- Claim C2: during Supernova recovery, for every parameter vector whose
redshift lies outside `[0, 3]` or whose `T0` lies outside
`[min(time), max(time)]`, the objective `ln_like` returns the penalty
`-1e99` with zero invocations of the external sncosmo evaluator — the
supernova model is never constructed or evaluated on that path.  The two
conjuncts cover the two destructurings of `theta`: the 4-parameter
non-SALT branch and the 6-parameter SALT1/SALT2 branch. -/
theorem ln_like_guard_short_circuits (E : SNEvaluator)
    (source bandpass : String) (time flux flux_err : List ℚ)
    (T0 z amplitude background x0 x1 c : ℚ)
    (hout : z < 0 ∨ 3 < z ∨ T0 < np_min time ∨ np_max time < T0) :
    (¬(source = "SALT1" ∨ source = "SALT2") →
      ln_like_sn E source bandpass time flux flux_err
        [T0, z, amplitude, background] = (-(10 ^ 99), 0)) ∧
    ((source = "SALT1" ∨ source = "SALT2") →
      ln_like_sn E source bandpass time flux flux_err
        [T0, z, x0, x1, c, background] = (-(10 ^ 99), 0)) := by
  constructor
  · intro hs
    unfold ln_like_sn
    rw [if_neg hs]
    show (if z < 0 ∨ 3 < z ∨ T0 < np_min time ∨ np_max time < T0
        then _ else _) = _
    rw [if_pos hout]
  · intro hs
    unfold ln_like_sn
    rw [if_pos hs]
    show (if z < 0 ∨ 3 < z ∨ T0 < np_min time ∨ np_max time < T0 ∨
        x0 < 0 ∨ 1 < x0 ∨ x1 < 0 ∨ 1 < x1 ∨ c < -(1 / 2) ∨ 1 / 2 < c
        then _ else _) = _
    have : z < 0 ∨ 3 < z ∨ T0 < np_min time ∨ np_max time < T0 ∨
        x0 < 0 ∨ 1 < x0 ∨ x1 < 0 ∨ 1 < x1 ∨ c < -(1 / 2) ∨ 1 / 2 < c := by
      rcases hout with h | h | h | h
      · exact Or.inl h
      · exact Or.inr (Or.inl h)
      · exact Or.inr (Or.inr (Or.inl h))
      · exact Or.inr (Or.inr (Or.inr (Or.inl h)))
    rw [if_pos this]

/-- Witness for C2 at a concrete input: `z = 5` lies outside `[0, 3]`, the
source `'hsiao'` is not a SALT source, and the objective indeed returns
`(-1e99, 0)`. -/
theorem ln_like_guard_short_circuits_witness :
    ((5 : ℚ) < 0 ∨ (3 : ℚ) < 5 ∨ (0 : ℚ) < np_min [0, 1] ∨ np_max [0, 1] < 0) ∧
    ln_like_sn (fun _ _ _ _ _ t => t) "hsiao" "kepler" [0, 1] [1, 1] [1, 1]
      [0, 5, 1, 0] = (-(10 ^ 99), 0) :=
  ⟨by decide,
    (ln_like_guard_short_circuits (fun _ _ _ _ _ t => t) "hsiao" "kepler"
      [0, 1] [1, 1] [1, 1] 0 5 1 0 0 0 0 (by decide)).1 (by decide)⟩

set_option maxRecDepth 4000 in
/-- Counterexample to C4: the recovery objective contains no near-zero
chi-square guard.  At `time = [1]`, `flux = [2]`, `flux_err = [1]`, an
evaluator returning `[2]`, non-SALT source, non-kepler bandpass and the
in-bounds vector `theta = [1, 1/2, 1, 0]`, the chi-square is `0 < 1e-6`
yet `ln_like` returns `-0.5 * 0 = 0` (with one evaluator call), not a
large penalty of either sign. -/
theorem ln_like_no_epsilon_guard_counterexample :
    ln_like_sn (fun _ _ _ _ _ t => t.map (fun _ => 2)) "hsiao" "none"
      [1] [2] [1] [1, 1 / 2, 1, 0] = (0, 1) ∧
    chisq_stat [2] [2] [1] = 0 ∧
    (0 : ℚ) < 1 / 10 ^ 6 ∧
    (0 : ℚ) ≠ -(10 ^ 99) ∧ (0 : ℚ) ≠ 10 ^ 99 := by with_unfolding_all decide

/-- Claim C4 amended: none of the recovery objectives contains a near-zero
chi-square guard.  For every in-bounds parameter vector the objective
returns the plain chi-square expression, with exactly one external
evaluator call where a model is built: `-0.5 * chisq` in the non-SALT
4-parameter Supernova destructuring (first conjunct), `-0.5 * chisq` in
the SALT 6-parameter destructuring (second conjunct), and
`-(-0.5 * chisq)` for every 3-parameter Planet vector (third conjunct;
the Planet objective has no bounds guard at all, so every such vector is
in bounds) — including when the chi-square is below `1e-6`, where a
near-zero chi-square yields a near-zero objective value, never a
penalty. -/
theorem ln_like_in_bounds_returns_half_chisq (E : SNEvaluator)
    (Ebat : BatEvaluator) (source bandpass : String)
    (time flux flux_err : List ℚ)
    (T0 z amplitude background x0 x1 c period rprs T0p : ℚ) :
    (¬(source = "SALT1" ∨ source = "SALT2") →
      ¬(z < 0 ∨ 3 < z ∨ T0 < np_min time ∨ np_max time < T0) →
      ln_like_sn E source bandpass time flux flux_err
          [T0, z, amplitude, background] =
        (-(1 / 2) * chisq_stat flux
          ((SupernovaModel.evaluate E
              (SupernovaModel.build T0 source bandpass (ParamValue.lit z)
                [("amplitude", ParamValue.lit amplitude)] []).1 time).1.map
            (fun x => x + background)) flux_err, 1)) ∧
    ((source = "SALT1" ∨ source = "SALT2") →
      ¬(z < 0 ∨ 3 < z ∨ T0 < np_min time ∨ np_max time < T0 ∨
          x0 < 0 ∨ 1 < x0 ∨ x1 < 0 ∨ 1 < x1 ∨ c < -(1 / 2) ∨ 1 / 2 < c) →
      ln_like_sn E source bandpass time flux flux_err
          [T0, z, x0, x1, c, background] =
        (-(1 / 2) * chisq_stat flux
          ((SupernovaModel.evaluate E
              (SupernovaModel.build T0 source bandpass (ParamValue.lit z)
                [("x0", ParamValue.lit x0), ("x1", ParamValue.lit x1),
                 ("c", ParamValue.lit c)] []).1 time).1.map
            (fun x => x + background)) flux_err, 1)) ∧
    (ln_like_planet Ebat time flux flux_err [period, rprs, T0p] =
      -(-(1 / 2) * chisq_stat flux
        (TransitModel.evaluate Ebat
          (TransitModel.init.add_planet (ParamValue.lit period)
            (ParamValue.lit rprs) (ParamValue.lit T0p) (ParamValue.lit 15)
            (ParamValue.lit 90) (ParamValue.lit 0) (ParamValue.lit 90)
            "quadratic" [1 / 10, 3 / 10] []).1 time) flux_err)) := by
  refine ⟨?_, ?_, rfl⟩
  · intro hs hin
    unfold ln_like_sn
    rw [if_neg hs]
    show (if z < 0 ∨ 3 < z ∨ T0 < np_min time ∨ np_max time < T0
        then _ else _) = _
    rw [if_neg hin]
  · intro hs hin
    unfold ln_like_sn
    rw [if_pos hs]
    show (if z < 0 ∨ 3 < z ∨ T0 < np_min time ∨ np_max time < T0 ∨
        x0 < 0 ∨ 1 < x0 ∨ x1 < 0 ∨ 1 < x1 ∨ c < -(1 / 2) ∨ 1 / 2 < c
        then _ else _) = _
    rw [if_neg hin]

/-- Witness for the amended C4, exercising all three conjuncts at concrete
inputs: the non-SALT branch at the counterexample's input (where the
chi-square is `0 < 1e-6`), the SALT branch at an in-bounds 6-parameter
vector with source `'SALT2'`, and the Planet objective at a concrete
3-parameter vector. -/
theorem ln_like_in_bounds_returns_half_chisq_witness :
    (¬(("hsiao" : String) = "SALT1" ∨ ("hsiao" : String) = "SALT2")) ∧
    (¬((1 / 2 : ℚ) < 0 ∨ (3 : ℚ) < 1 / 2 ∨ (1 : ℚ) < np_min [1] ∨
        np_max [1] < 1)) ∧
    (("SALT2" : String) = "SALT1" ∨ ("SALT2" : String) = "SALT2") ∧
    (¬((1 / 2 : ℚ) < 0 ∨ (3 : ℚ) < 1 / 2 ∨ (1 : ℚ) < np_min [1] ∨
        np_max [1] < 1 ∨ (1 / 2 : ℚ) < 0 ∨ (1 : ℚ) < 1 / 2 ∨
        (1 / 2 : ℚ) < 0 ∨ (1 : ℚ) < 1 / 2 ∨ (0 : ℚ) < -(1 / 2) ∨
        (1 / 2 : ℚ) < 0)) ∧
    (ln_like_sn (fun _ _ _ _ _ t => t.map (fun _ => 2)) "hsiao" "none"
        [1] [2] [1] [1, 1 / 2, 1, 0] =
      (-(1 / 2) * chisq_stat [2]
        ((SupernovaModel.evaluate (fun _ _ _ _ _ t => t.map (fun _ => 2))
            (SupernovaModel.build 1 "hsiao" "none" (ParamValue.lit (1 / 2))
              [("amplitude", ParamValue.lit 1)] []).1 [1]).1.map
          (fun x => x + 0)) [1], 1)) ∧
    (ln_like_sn (fun _ _ _ _ _ t => t.map (fun _ => 2)) "SALT2" "none"
        [1] [2] [1] [1, 1 / 2, 1 / 2, 1 / 2, 0, 0] =
      (-(1 / 2) * chisq_stat [2]
        ((SupernovaModel.evaluate (fun _ _ _ _ _ t => t.map (fun _ => 2))
            (SupernovaModel.build 1 "SALT2" "none" (ParamValue.lit (1 / 2))
              [("x0", ParamValue.lit (1 / 2)), ("x1", ParamValue.lit (1 / 2)),
               ("c", ParamValue.lit 0)] []).1 [1]).1.map
          (fun x => x + 0)) [1], 1)) ∧
    (ln_like_planet (fun _ t => t.map (fun _ => 2)) [1] [2] [1]
        [2, 1 / 10, 1] =
      -(-(1 / 2) * chisq_stat [2]
        (TransitModel.evaluate (fun _ t => t.map (fun _ => 2))
          (TransitModel.init.add_planet (ParamValue.lit 2)
            (ParamValue.lit (1 / 10)) (ParamValue.lit 1) (ParamValue.lit 15)
            (ParamValue.lit 90) (ParamValue.lit 0) (ParamValue.lit 90)
            "quadratic" [1 / 10, 3 / 10] []).1 [1]) [1])) :=
  ⟨by decide, by with_unfolding_all decide, by decide,
    by with_unfolding_all decide,
    (ln_like_in_bounds_returns_half_chisq (fun _ _ _ _ _ t => t.map (fun _ => 2))
      (fun _ t => t.map (fun _ => 2)) "hsiao" "none" [1] [2] [1]
      1 (1 / 2) 1 0 0 0 0 0 0 0).1 (by decide) (by with_unfolding_all decide),
    (ln_like_in_bounds_returns_half_chisq (fun _ _ _ _ _ t => t.map (fun _ => 2))
      (fun _ t => t.map (fun _ => 2)) "SALT2" "none" [1] [2] [1]
      1 (1 / 2) 0 0 (1 / 2) (1 / 2) 0 0 0 0).2.1 (by decide)
      (by with_unfolding_all decide),
    (ln_like_in_bounds_returns_half_chisq (fun _ _ _ _ _ t => t.map (fun _ => 2))
      (fun _ t => t.map (fun _ => 2)) "hsiao" "none" [1] [2] [1]
      0 0 0 0 0 0 0 2 (1 / 10) 1).2.2⟩

/-- The flux returned by `SupernovaModel.evaluate` (definitional reading of
lines 211-218). -/
theorem supernova_evaluate_flux_def (E : SNEvaluator) (m : SupernovaModel)
    (time : List ℚ) :
    (SupernovaModel.evaluate E m time).1 =
      if m.bandpass = "kepler" then
        (E m.source m.T0 m.z m.sn_params m.bandpass time).map (fun x => x * 5480)
      else E m.source m.T0 m.z m.sn_params m.bandpass time := rfl

/-- Claim C7: `SupernovaModel.evaluate` returns the raw band-integrated flux
rescaled elementwise by the fixed effective-area constant `5480` exactly
when the configured bandpass is the string `'kepler'`, and the raw flux
unscaled for every other bandpass value. -/
theorem supernova_evaluate_kepler_scaling (E : SNEvaluator)
    (m : SupernovaModel) (time : List ℚ) :
    (m.bandpass = "kepler" →
      (SupernovaModel.evaluate E m time).1 =
        (E m.source m.T0 m.z m.sn_params m.bandpass time).map
          (fun x => x * 5480)) ∧
    (m.bandpass ≠ "kepler" →
      (SupernovaModel.evaluate E m time).1 =
        E m.source m.T0 m.z m.sn_params m.bandpass time) := by
  constructor
  · intro h
    rw [supernova_evaluate_flux_def, if_pos h]
  · intro h
    rw [supernova_evaluate_flux_def, if_neg h]

/-- Witness for C7: a model built with bandpass `'kepler'` and a raw
evaluator returning `[1]` on `time = [1]` yields the rescaled `[5480]`. -/
theorem supernova_evaluate_kepler_scaling_witness :
    ((SupernovaModel.build 1 "hsiao" "kepler" (ParamValue.lit (1 / 2))
        [] []).1.bandpass = "kepler") ∧
    (SupernovaModel.evaluate (fun _ _ _ _ _ t => t.map (fun _ => 1))
        (SupernovaModel.build 1 "hsiao" "kepler" (ParamValue.lit (1 / 2))
          [] []).1 [1]).1 =
      ((fun _ _ _ _ _ t => t.map (fun _ => 1) : SNEvaluator) "hsiao" 1
        (1 / 2) [] "kepler" [1]).map (fun x => x * 5480) :=
  ⟨rfl,
    (supernova_evaluate_kepler_scaling (fun _ _ _ _ _ t => t.map (fun _ => 1))
      (SupernovaModel.build 1 "hsiao" "kepler" (ParamValue.lit (1 / 2))
        [] []).1 [1]).1 rfl⟩

/-- Lemma: `create_initial_guess` returns a supplied guess verbatim, for every
source (lines 283 and 292). -/
theorem create_initial_guess_some (time flux : List ℚ) (source : String)
    (g : List ℚ) :
    create_initial_guess time flux source (some g) = some g := by
  unfold create_initial_guess
  split
  · rfl
  · rfl

/-- The Planet branch of `recover`, in closed form (lines 335-385): the
optimizer applied to the Planet objective from the BLS seed. -/
theorem recover_planet_eq (Esn : SNEvaluator) (Ebat : BatEvaluator)
    (opt : Optimizer) (bls : BlsFn) (sqrtf : ℚ → ℚ)
    (time flux flux_err : List ℚ) (source bandpass : String)
    (ig : Option (List ℚ)) :
    recover Esn Ebat opt bls sqrtf time flux flux_err "Planet" source
        bandpass ig =
      .ok (some (opt (ln_like_planet Ebat time flux flux_err)
        (bls_seed bls sqrtf time flux)), []) := rfl

/-- Claim C5 amended: when an explicit `initial_guess` is supplied, the
Supernova branch of `recover` starts the optimizer from exactly that
vector (first conjunct).  The Planet branch never consults
`initial_guess` at all: for every guess argument, supplied or not, its
result is the optimizer started from the BLS-derived seed
`[bls_period, sqrt(depth), bls_T0]` (second conjunct), so in particular
the result with a supplied guess is identical to the result without one
(third conjunct). -/
theorem recover_initial_guess_usage (Esn : SNEvaluator) (Ebat : BatEvaluator)
    (opt : Optimizer) (bls : BlsFn) (sqrtf : ℚ → ℚ)
    (time flux flux_err : List ℚ) (source bandpass : String) (g : List ℚ) :
    (recover Esn Ebat opt bls sqrtf time flux flux_err "Supernova" source
        bandpass (some g) =
      .ok (some (opt (neg_ln_posterior Esn source bandpass time flux flux_err)
        g), [])) ∧
    (∀ ig : Option (List ℚ),
      recover Esn Ebat opt bls sqrtf time flux flux_err "Planet" source
          bandpass ig =
        .ok (some (opt (ln_like_planet Ebat time flux flux_err)
          (bls_seed bls sqrtf time flux)), [])) ∧
    (recover Esn Ebat opt bls sqrtf time flux flux_err "Planet" source
        bandpass (some g) =
      recover Esn Ebat opt bls sqrtf time flux flux_err "Planet" source
        bandpass none) := by
  refine ⟨?_, fun ig => recover_planet_eq Esn Ebat opt bls sqrtf time flux
    flux_err source bandpass ig, rfl⟩
  show (match create_initial_guess time flux source (some g) with
    | some x0 => Except.ok (some (opt (neg_ln_posterior Esn source bandpass
        time flux flux_err) x0), [])
    | none => Except.error
        "TypeError: scipy.optimize.minimize requires an array x0") = _
  rw [create_initial_guess_some]

/-- Counterexample to C5 as stated: with the identity optimizer (which
returns its start vector, so the recovery result reveals where the
optimization was started), a BLS collaborator reporting
`best_period = 2, depth = 4, in1 = 100, in2 = 200` and `sqrt = id`, a
Planet recovery supplied with the explicit guess `[10, 20, 30]` starts
from (and returns) the BLS seed `[2, 4, 3/5]`, not the supplied guess. -/
theorem recover_planet_ignores_guess_counterexample :
    (Lightkurve.recover (fun _ _ _ _ _ t => t) (fun _ t => t)
        (fun _ x0 => x0) (fun _ _ _ _ _ _ _ _ _ _ => [0, 2, 0, 4, 0, 100, 200])
        (fun x => x) [0, 1] [1, 1] [1, 1] "Planet" "hsiao" "kepler"
        (some [10, 20, 30])).toOption =
      some (some [2, 4, 3 / 5], []) ∧
    ([2, 4, 3 / 5] : List ℚ) ≠ [10, 20, 30] := by with_unfolding_all decide

/-- Claim C6 amended: the `SyntheticLightCurve` returned by `inject` carries the
model's `signaltype`, but no parameter mapping is attached to it — the
`**model.params` keyword expansion on line 246 is commented out in the
source, so `params` is empty.  The resolved mapping, with the synthetic
flux recorded under the reserved `'signal'` key, lives only on the
supernova model object itself, where `evaluate` stores it (lines
219-221). -/
theorem inject_provenance (time flux flux_err : List ℚ)
    (model : SignalModelI) (Esn : SNEvaluator) (m : SupernovaModel)
    (t : List ℚ) :
    ((inject time flux flux_err model).signaltype = model.signaltype) ∧
    ((inject time flux flux_err model).params = []) ∧
    ((SupernovaModel.evaluate Esn m t).2.params =
      dictUpdate (m.sn_params.map (fun kv => (kv.1, PVal.scalar kv.2)))
        "signal" (PVal.arr (SupernovaModel.evaluate Esn m t).1)) :=
  ⟨rfl, rfl, rfl⟩

/-- Counterexample to C6 as stated: for a concrete supernova injection the
resolved parameter mapping (here `amplitude = 3` plus the `'signal'` flux)
is non-empty, yet the returned `SyntheticLightCurve` carries an empty
parameter mapping — the provenance metadata never reaches the result. -/
theorem inject_provenance_counterexample :
    (inject [0, 1] [1, 1] [1, 1] (SignalModelI.ofSupernova
        (fun _ _ _ _ _ t => t.map (fun _ => 7))
        (SupernovaModel.build 1 "hsiao" "none" (ParamValue.lit (1 / 2))
          [("amplitude", ParamValue.lit 3)] []).1)).params = [] ∧
    ((SupernovaModel.evaluate (fun _ _ _ _ _ t => t.map (fun _ => 7))
        (SupernovaModel.build 1 "hsiao" "none" (ParamValue.lit (1 / 2))
          [("amplitude", ParamValue.lit 3)] []).1 [0, 1]).2.params =
      [("amplitude", PVal.scalar 3), ("signal", PVal.arr [7, 7])]) ∧
    ([] : List (String × PVal)) ≠
      [("amplitude", PVal.scalar 3), ("signal", PVal.arr [7, 7])] :=
  ⟨rfl, by decide, by decide⟩

/-- Claim C8: distribution-valued parameters are resolved to scalars exactly once,
at model construction.  The conjuncts state, in order: a `SupernovaModel`
built with a distribution redshift stores the value sampled from the
random stream at construction; with no extra keyword arguments exactly
that one draw is consumed; an extra keyword argument that is itself a
distribution is resolved immediately after `z`, from the advanced stream,
and stored as a scalar; `evaluate` leaves the resolved parameters (`T0`,
`z`, `sn_params`) untouched, so a repeated `evaluate` on the model it
returns produces the same flux; and `add_planet` with a distribution
period stores the construction-time sample both as the attribute and in
the batman parameter object.  In this embedding `evaluate` takes no
random stream at all — mirroring the source, where neither `evaluate`
body contains a `sample()` call — so no later resampling is possible. -/
theorem parameters_resolved_once_at_construction (d d2 : Distribution)
    (rng : Rng) (T0 : ℚ) (source bandpass k : String) (Esn : SNEvaluator)
    (m : SupernovaModel) (t : List ℚ) (mt : TransitModel)
    (rprs T0p a inc ecc w : ParamValue) (ld : String) (u : List ℚ) :
    ((SupernovaModel.build T0 source bandpass (ParamValue.dist d) [] rng).1.z =
      (d.sample rng).1) ∧
    ((SupernovaModel.build T0 source bandpass (ParamValue.dist d) [] rng).2 =
      (d.sample rng).2) ∧
    ((SupernovaModel.build T0 source bandpass (ParamValue.dist d)
        [(k, ParamValue.dist d2)] rng).1.sn_params =
      [(k, (d2.sample (d.sample rng).2).1)]) ∧
    ((SupernovaModel.build T0 source bandpass (ParamValue.dist d)
        [(k, ParamValue.dist d2)] rng).2 = (d2.sample (d.sample rng).2).2) ∧
    ((SupernovaModel.evaluate Esn m t).2.T0 = m.T0 ∧
      (SupernovaModel.evaluate Esn m t).2.z = m.z ∧
      (SupernovaModel.evaluate Esn m t).2.sn_params = m.sn_params) ∧
    ((SupernovaModel.evaluate Esn ((SupernovaModel.evaluate Esn m t).2) t).1 =
      (SupernovaModel.evaluate Esn m t).1) ∧
    ((mt.add_planet (ParamValue.dist d) rprs T0p a inc ecc w ld u rng).1.period =
      (d.sample rng).1) ∧
    ((mt.add_planet (ParamValue.dist d) rprs T0p a inc ecc w ld u rng).1.model.per =
      (d.sample rng).1) :=
  ⟨rfl, rfl, rfl, rfl, ⟨rfl, rfl, rfl⟩, rfl, rfl, rfl⟩

/-- Claim C9: for every signal type other than `'Supernova'` and `'Planet'`, both
`recover` and `injrec_test` emit their diagnostic message and return
`None` — no exception is raised (the embedding's error constructor is
never produced on this path). -/
theorem unsupported_signal_type_returns_none (Esn : SNEvaluator)
    (Ebat : BatEvaluator) (opt : Optimizer) (bls : BlsFn) (sqrtf : ℚ → ℚ)
    (time flux flux_err : List ℚ) (source bandpass : String)
    (ig : Option (List ℚ)) (lc : LightCurve) (ntests : Nat) (constr : ℚ)
    (pd rd td zd ad : Distribution) (rng : Rng) (st : String)
    (h1 : st ≠ "Supernova") (h2 : st ≠ "Planet") :
    recover Esn Ebat opt bls sqrtf time flux flux_err st source bandpass ig =
      .ok (none, ["Signal Type not supported."]) ∧
    injrec_test Esn Ebat opt bls sqrtf lc st ntests constr pd rd td zd ad rng =
      .ok (none, ["Signal type not supported."]) := by
  constructor
  · unfold recover
    rw [if_neg h1, if_neg h2]
  · unfold injrec_test
    rw [if_neg h1, if_neg h2]

/-- Witness for C9 at the concrete unsupported signal type `'Star'`. -/
theorem unsupported_signal_type_returns_none_witness :
    ("Star" : String) ≠ "Supernova" ∧ ("Star" : String) ≠ "Planet" ∧
    recover (fun _ _ _ _ _ t => t) (fun _ t => t) (fun _ x0 => x0)
        (fun _ _ _ _ _ _ _ _ _ _ => []) (fun x => x) [0] [1] [1] "Star"
        "hsiao" "kepler" none =
      .ok (none, ["Signal Type not supported."]) ∧
    injrec_test (fun _ _ _ _ _ t => t) (fun _ t => t) (fun _ x0 => x0)
        (fun _ _ _ _ _ _ _ _ _ _ => []) (fun x => x) ⟨[0], [1], [1]⟩ "Star"
        1 (3 / 100) (Distribution.uniform 0 1) (Distribution.uniform 0 1)
        (Distribution.uniform 0 1) (Distribution.uniform 0 1)
        (Distribution.uniform 0 1) [] =
      .ok (none, ["Signal type not supported."]) := by
  refine ⟨by decide, by decide, ?_, ?_⟩
  · exact (unsupported_signal_type_returns_none (fun _ _ _ _ _ t => t)
      (fun _ t => t) (fun _ x0 => x0) (fun _ _ _ _ _ _ _ _ _ _ => [])
      (fun x => x) [0] [1] [1] "hsiao" "kepler" none ⟨[0], [1], [1]⟩ 1
      (3 / 100) (Distribution.uniform 0 1) (Distribution.uniform 0 1)
      (Distribution.uniform 0 1) (Distribution.uniform 0 1)
      (Distribution.uniform 0 1) [] "Star" (by decide) (by decide)).1
  · exact (unsupported_signal_type_returns_none (fun _ _ _ _ _ t => t)
      (fun _ t => t) (fun _ x0 => x0) (fun _ _ _ _ _ _ _ _ _ _ => [])
      (fun x => x) [0] [1] [1] "hsiao" "kepler" none ⟨[0], [1], [1]⟩ 1
      (3 / 100) (Distribution.uniform 0 1) (Distribution.uniform 0 1)
      (Distribution.uniform 0 1) (Distribution.uniform 0 1)
      (Distribution.uniform 0 1) [] "Star" (by decide) (by decide)).2

/-- A list of length 4 is a 4-element literal. -/
theorem exists_four_of_length {l : List ℚ} (h : l.length = 4) :
    ∃ a b c d, l = [a, b, c, d] := by
  cases l with
  | nil => simp at h
  | cons a l1 =>
    cases l1 with
    | nil => simp at h
    | cons b l2 =>
      cases l2 with
      | nil => simp at h
      | cons c l3 =>
        cases l3 with
        | nil => simp at h
        | cons d l4 =>
          cases l4 with
          | nil => exact ⟨a, b, c, d, rfl⟩
          | cons e l5 => simp at h

/-- The Supernova branch of `recover` for a non-SALT source with no guess,
in closed form (lines 285-290 and 330): the optimizer applied to
`neg_ln_posterior` from the 4-component default guess
`[T0, z, amplitude, background]`. -/
theorem recover_sn_default_eq (Esn : SNEvaluator) (Ebat : BatEvaluator)
    (opt : Optimizer) (bls : BlsFn) (sqrtf : ℚ → ℚ)
    (time flux flux_err : List ℚ) (source bandpass : String)
    (hs : ¬(source = "SALT1" ∨ source = "SALT2")) :
    recover Esn Ebat opt bls sqrtf time flux flux_err "Supernova" source
        bandpass none =
      .ok (some (opt (neg_ln_posterior Esn source bandpass time flux flux_err)
        [np_median time, 1 / 2, 3 / 10 ^ 7, np_percentile flux 3]), []) := by
  have h : create_initial_guess time flux source none =
      some [np_median time, 1 / 2, 3 / 10 ^ 7, np_percentile flux 3] := by
    unfold create_initial_guess
    rw [if_neg hs]
  unfold recover
  rw [if_pos rfl, h]

/-- Every pass through the Supernova trial loop ends in the unpacking
error: the recovered vector has the 4 components of the default guess,
but line 442 unpacks it into 3 names. -/
theorem injrec_sn_loop_unpack_error (Esn : SNEvaluator) (Ebat : BatEvaluator)
    (opt : Optimizer) (bls : BlsFn) (sqrtf : ℚ → ℚ) (lc : LightCurve)
    (constr : ℚ) (T0d zd ampd : Distribution)
    (hopt : ∀ f x0, (opt f x0).length = x0.length)
    (n : Nat) (rng : Rng) (acc : Nat) :
    injrec_sn_loop Esn Ebat opt bls sqrtf lc constr T0d zd ampd
        (n + 1) rng acc =
      .error "ValueError: too many values to unpack (expected 3)" := by
  simp only [injrec_sn_loop, SyntheticLightCurve.recover, LightCurve.inject]
  rw [recover_sn_default_eq Esn Ebat opt bls sqrtf _ _ _ "hsiao" "kepler"
    (by decide)]
  obtain ⟨a, b, c, d, hx⟩ := exists_four_of_length
    (hopt (neg_ln_posterior Esn "hsiao" "kepler" _ _ _)
      [np_median _, 1 / 2, 3 / 10 ^ 7, np_percentile _ 3])
  rw [hx]

/-- Claim C10: for Supernova campaigns with `ntests ≥ 1`, `recover` with a
non-SALT source and no initial guess optimizes over the 4-component
vector `[T0, z, amplitude, background]` and returns all four components
(first two conjuncts, for any dimension-preserving optimizer), but the
Supernova loop of `injrec_test` destructures that result into exactly
three names, so every Supernova trial fails with an unpacking error and
no recovered fraction is ever returned (third conjunct). -/
theorem injrec_supernova_unpacking_mismatch (Esn : SNEvaluator)
    (Ebat : BatEvaluator) (opt : Optimizer) (bls : BlsFn) (sqrtf : ℚ → ℚ)
    (time flux flux_err : List ℚ) (source bandpass : String)
    (lc : LightCurve) (constr : ℚ) (ntests : Nat)
    (pd rd td zd ad : Distribution) (rng : Rng)
    (hopt : ∀ f x0, (opt f x0).length = x0.length)
    (hs : ¬(source = "SALT1" ∨ source = "SALT2")) (hn : 1 ≤ ntests) :
    (recover Esn Ebat opt bls sqrtf time flux flux_err "Supernova" source
        bandpass none =
      .ok (some (opt (neg_ln_posterior Esn source bandpass time flux flux_err)
        [np_median time, 1 / 2, 3 / 10 ^ 7, np_percentile flux 3]), [])) ∧
    ((opt (neg_ln_posterior Esn source bandpass time flux flux_err)
        [np_median time, 1 / 2, 3 / 10 ^ 7, np_percentile flux 3]).length = 4) ∧
    (injrec_test Esn Ebat opt bls sqrtf lc "Supernova" ntests constr
        pd rd td zd ad rng =
      .error "ValueError: too many values to unpack (expected 3)") := by
  refine ⟨recover_sn_default_eq Esn Ebat opt bls sqrtf time flux flux_err
    source bandpass hs, hopt _ _, ?_⟩
  obtain ⟨n, rfl⟩ : ∃ n, ntests = n + 1 := ⟨ntests - 1, by omega⟩
  unfold injrec_test
  rw [if_pos rfl,
    injrec_sn_loop_unpack_error Esn Ebat opt bls sqrtf lc constr td zd ad
      hopt n rng 0]

/-- Witness for C10 at concrete inputs: the identity optimizer (which is
dimension-preserving), concrete external collaborators, one trial. -/
theorem injrec_supernova_unpacking_mismatch_witness :
    ((1 : Nat) ≤ 1) ∧
    injrec_test (fun _ _ _ _ _ t => t) (fun _ t => t) (fun _ x0 => x0)
        (fun _ _ _ _ _ _ _ _ _ _ => [0, 1, 0, 1, 0, 1, 2]) (fun x => x)
        ⟨[0, 1], [1, 1], [1, 1]⟩ "Supernova" 1 (3 / 100)
        (Distribution.uniform 0 1) (Distribution.uniform 0 1)
        (Distribution.uniform 0 1) (Distribution.uniform 0 1)
        (Distribution.uniform 0 1) [1 / 2, 1 / 2, 1 / 2] =
      .error "ValueError: too many values to unpack (expected 3)" :=
  ⟨by decide,
    (injrec_supernova_unpacking_mismatch (fun _ _ _ _ _ t => t) (fun _ t => t)
      (fun _ x0 => x0) (fun _ _ _ _ _ _ _ _ _ _ => [0, 1, 0, 1, 0, 1, 2])
      (fun x => x) [0] [1] [1] "hsiao" "kepler" ⟨[0, 1], [1, 1], [1, 1]⟩
      (3 / 100) 1 (Distribution.uniform 0 1) (Distribution.uniform 0 1)
      (Distribution.uniform 0 1) (Distribution.uniform 0 1)
      (Distribution.uniform 0 1) [1 / 2, 1 / 2, 1 / 2] (fun _ _ => rfl)
      (by decide) (by decide)).2.2⟩

/-- The Planet trial loop refines the spec-side recovered count: for any
dimension-preserving optimizer the loop never errors, and the counter it
returns is the accumulator plus the number of trials whose recovered
parameters all pass the relative-tolerance check. -/
theorem planet_loop_eq_count (Esn : SNEvaluator) (Ebat : BatEvaluator)
    (opt : Optimizer) (bls : BlsFn) (sqrtf : ℚ → ℚ) (lc : LightCurve)
    (constr : ℚ) (pd rd td : Distribution)
    (hopt : ∀ f x0, (opt f x0).length = x0.length) :
    ∀ (n : Nat) (rng : Rng) (acc : Nat),
      injrec_planet_loop Esn Ebat opt bls sqrtf lc constr pd rd td n rng acc =
        .ok (acc + planet_recovered_count Esn Ebat opt bls sqrtf lc constr
          pd rd td n rng) := by
  intro n
  induction n with
  | zero =>
    intro rng acc
    simp [injrec_planet_loop, planet_recovered_count]
  | succ n ih =>
    intro rng acc
    simp only [injrec_planet_loop, planet_recovered_count, planet_trial,
      SyntheticLightCurve.recover, LightCurve.inject, recover_planet_eq]
    split
    · next period_f rprs_f T0_f heq =>
      simp only [heq, List.getD_cons_zero, List.getD_cons_succ]
      by_cases h : |period_f - (pd.sample rng).1| < constr * (pd.sample rng).1 ∧
          |rprs_f - (rd.sample (pd.sample rng).2).1| <
            constr * (rd.sample (pd.sample rng).2).1 ∧
          |T0_f - (td.sample (rd.sample (pd.sample rng).2).2).1| <
            constr * (td.sample (rd.sample (pd.sample rng).2).2).1
      · have h2 : planet_recovered constr ((pd.sample rng).1,
            (rd.sample (pd.sample rng).2).1,
            (td.sample (rd.sample (pd.sample rng).2).2).1)
            (period_f, rprs_f, T0_f) := h
        rw [if_pos h, if_pos h2, ih, Nat.add_assoc]
      · have h2 : ¬planet_recovered constr ((pd.sample rng).1,
            (rd.sample (pd.sample rng).2).1,
            (td.sample (rd.sample (pd.sample rng).2).2).1)
            (period_f, rprs_f, T0_f) := h
        rw [if_neg h, if_neg h2, ih, Nat.zero_add]
    · next hne =>
      exfalso
      obtain ⟨a, b, c, hx⟩ := List.length_eq_three.mp
        (hopt (ln_like_planet Ebat _ _ _) (bls_seed bls sqrtf _ _))
      exact hne a b c hx

/-- Claim C3 amended: for a Planet campaign of `ntests ≥ 1` trials (and any
dimension-preserving optimizer), `injrec_test` counts a trial as
recovered exactly according to `planet_recovered` — every recovered
parameter within the relative tolerance `constr` of its injected value,
each checked independently, all required to pass — and returns the
recovered count divided by `ntests`.  (For Supernova campaigns no
fraction is ever returned: every trial fails with an unpacking error; see
the counterexample and claim C10.) -/
theorem injrec_planet_fraction (Esn : SNEvaluator) (Ebat : BatEvaluator)
    (opt : Optimizer) (bls : BlsFn) (sqrtf : ℚ → ℚ) (lc : LightCurve)
    (ntests : Nat) (constr : ℚ) (pd rd td zd ad : Distribution) (rng : Rng)
    (hopt : ∀ f x0, (opt f x0).length = x0.length) (hn : 0 < ntests) :
    injrec_test Esn Ebat opt bls sqrtf lc "Planet" ntests constr
        pd rd td zd ad rng =
      .ok (some (((planet_recovered_count Esn Ebat opt bls sqrtf lc constr
        pd rd td ntests rng : Nat) : ℚ) / (ntests : ℚ)), []) := by
  unfold injrec_test
  rw [if_neg (by decide), if_pos rfl,
    planet_loop_eq_count Esn Ebat opt bls sqrtf lc constr pd rd td hopt
      ntests rng 0]
  rw [Nat.zero_add]

/-- Witness for the amended C3 at concrete inputs: one trial, identity
optimizer, concrete collaborators. -/
theorem injrec_planet_fraction_witness :
    ((0 : Nat) < 1) ∧
    injrec_test (fun _ _ _ _ _ t => t) (fun _ t => t.map (fun _ => 1))
        (fun _ x0 => x0) (fun _ _ _ _ _ _ _ _ _ _ => [0, 2, 0, 4, 0, 100, 200])
        (fun x => x) ⟨[0, 1], [1, 1], [1, 1]⟩ "Planet" 1 (3 / 100)
        (Distribution.uniform 0 1) (Distribution.uniform 0 1)
        (Distribution.uniform 0 1) (Distribution.uniform 0 1)
        (Distribution.uniform 0 1) [1 / 2, 1 / 2, 1 / 2] =
      .ok (some (((planet_recovered_count (fun _ _ _ _ _ t => t)
        (fun _ t => t.map (fun _ => 1)) (fun _ x0 => x0)
        (fun _ _ _ _ _ _ _ _ _ _ => [0, 2, 0, 4, 0, 100, 200]) (fun x => x)
        ⟨[0, 1], [1, 1], [1, 1]⟩ (3 / 100) (Distribution.uniform 0 1)
        (Distribution.uniform 0 1) (Distribution.uniform 0 1)
        1 [1 / 2, 1 / 2, 1 / 2] : Nat) : ℚ) / ((1 : Nat) : ℚ)), []) :=
  ⟨by decide,
    injrec_planet_fraction (fun _ _ _ _ _ t => t)
      (fun _ t => t.map (fun _ => 1)) (fun _ x0 => x0)
      (fun _ _ _ _ _ _ _ _ _ _ => [0, 2, 0, 4, 0, 100, 200]) (fun x => x)
      ⟨[0, 1], [1, 1], [1, 1]⟩ 1 (3 / 100) (Distribution.uniform 0 1)
      (Distribution.uniform 0 1) (Distribution.uniform 0 1)
      (Distribution.uniform 0 1) (Distribution.uniform 0 1)
      [1 / 2, 1 / 2, 1 / 2] (fun _ _ => rfl) (by decide)⟩

/-- Counterexample to C3 as stated (its "every campaign run" includes
Supernova campaigns): a concrete Supernova campaign of one trial returns
no fraction at all — it fails with the unpacking error. -/
theorem injrec_supernova_no_fraction_counterexample :
    injrec_test (fun _ _ _ _ _ t => t.map (fun _ => 0)) (fun _ t => t)
        (fun _ x0 => x0) (fun _ _ _ _ _ _ _ _ _ _ => [0, 1, 0, 1, 0, 1, 2])
        (fun x => x) ⟨[0, 2], [1, 1], [1, 1]⟩ "Supernova" 1 (3 / 100)
        (Distribution.uniform 0 1) (Distribution.uniform 0 1)
        (Distribution.uniform 0 2) (Distribution.uniform 0 1)
        (Distribution.uniform 0 1) [1 / 4, 1 / 4, 1 / 4] =
      .error "ValueError: too many values to unpack (expected 3)" := by decide

end Lightkurve
